import Mathlib

/-!
# Verification of the LOGISPLAN extraction & reconciliation engine

Shallow embedding of the Python sources (`importador_facturas.py`,
`importador.py`, `importador_costes.py`, `database.py`) in Lean 4.
Python `float` values are modelled as rationals (`ℚ`), Python `None` as
`Option`, Python dicts keyed by strings as association lists or functions
into `Option`.
-/

set_option maxRecDepth 8000

namespace LogisPlan

/-- Python `x or 0` applied to an optional number (`mov.get(k, 0) or 0`):
`None` and `0.0` both collapse to `0`. -/
def orZero : Option ℚ → ℚ
  | none => 0
  | some x => x

/-- A fuel line item as built by the invoice parsers in
`importador_facturas.py` (the dicts appended to `resultado['movimientos']`).
`litros` and `precio_litro` may be absent (`parsear_numero_es` can return
`None`); the monetary fields are always set by the parsers. -/
structure MovComb where
  vehiculo : String
  fecha : Option String
  concepto : String
  litros : Option ℚ
  precio_litro : Option ℚ
  importe_bruto : ℚ
  descuento : ℚ
  importe : ℚ
deriving DecidableEq, Repr

/-! ## Valcarce fuel: base-imponible reconciliation
(`parsear_valcarce_combustible`, `importador_facturas.py` lines 483-502).

The Python code iterates over `resultado['movimientos']`, mutating
`importe`, `descuento` and `precio_litro` of each entry in place.  Each
iteration recomputes `movs_veh`, `len(movs_veh)` and `total_litros` from
the (partially mutated) list, but those recomputations only read the
fields `vehiculo` and `litros`, which the loop never writes; hence the
in-place loop is exactly a `map` over the original list, with the
per-vehicle statistics taken from the original list. -/

/-- `[m for m in resultado['movimientos'] if m['vehiculo'] == veh]`. -/
def movimientosVehiculo (movs : List MovComb) (veh : String) : List MovComb :=
  movs.filter (fun m => m.vehiculo == veh)

/-- `sum(m.get('litros', 0) or 0 for m in movs_veh)`. -/
def totalLitrosVehiculo (movs : List MovComb) (veh : String) : ℚ :=
  ((movimientosVehiculo movs veh).map (fun m => orZero m.litros)).sum

/-- One iteration of the update loop of `parsear_valcarce_combustible`
(lines 484-502).  `bases` is the dict `bases_imponibles`
(`{vehiculo: base_imponible}`); `bases mov.vehiculo = none` models
`veh not in bases_imponibles`.  The guard on the unit-price division is
Python's `if mov['litros'] and mov['litros'] > 0` — `None` and `0.0` are
falsy, so the division runs exactly when `litros = some l` with `0 < l`. -/
def actualizar_importe_mov (movs : List MovComb) (bases : String → Option ℚ)
    (mov : MovComb) : MovComb :=
  match bases mov.vehiculo with
  | none => mov
  | some base =>
    let movs_veh := movimientosVehiculo movs mov.vehiculo
    if movs_veh.length = 1 then
      -- single line for this vehicle: net := base imponible, discount := gross - net
      let importe := base
      let descuento := mov.importe_bruto - importe
      let precio_litro :=
        match mov.litros with
        | some l => if 0 < l then some (importe / l) else mov.precio_litro
        | none => mov.precio_litro
      { mov with importe := importe, descuento := descuento, precio_litro := precio_litro }
    else
      -- several lines: prorate the base imponible by liters
      let total_litros := (movs_veh.map (fun m => orZero m.litros)).sum
      if 0 < total_litros then
        let proporcion := orZero mov.litros / total_litros
        let importe := base * proporcion
        let descuento := mov.importe_bruto - importe
        let precio_litro :=
          match mov.litros with
          | some l => if 0 < l then some (importe / l) else mov.precio_litro
          | none => mov.precio_litro
        { mov with importe := importe, descuento := descuento, precio_litro := precio_litro }
      else mov

/-- The whole update loop (`for mov in resultado['movimientos']: ...`). -/
def actualizar_importes_valcarce (movs : List MovComb)
    (bases : String → Option ℚ) : List MovComb :=
  movs.map (actualizar_importe_mov movs bases)

/-! ## StarOil fuel lines
(`parsear_staroil`, `importador_facturas.py` lines 197-236, constants
lines 35-38). -/

/-- `BONIF_STAROIL_GASOIL_IVA = 0.165` (€/L, VAT included). -/
def bonif_staroil_gasoil_iva : ℚ := 165/1000

/-- `BONIF_STAROIL_ADBLUE_IVA = 0.30` (€/L, VAT included). -/
def bonif_staroil_adblue_iva : ℚ := 30/100

/-- `BONIF_STAROIL_GASOIL = BONIF_STAROIL_GASOIL_IVA / 1.21`. -/
def bonif_staroil_gasoil : ℚ := bonif_staroil_gasoil_iva / (121/100)

/-- `BONIF_STAROIL_ADBLUE = BONIF_STAROIL_ADBLUE_IVA / 1.21`. -/
def bonif_staroil_adblue : ℚ := bonif_staroil_adblue_iva / (121/100)

/-- Movement built from one matched StarOil fuel line
(lines 201-236): `concepto` is `"GASOIL"` or `"ADBLUE"` (from the
regex group), `litros`/`precio_bruto_iva`/`importe_con_iva` the three
parsed numbers of the line. -/
def parsear_staroil_linea (vehiculo : String) (fecha : Option String)
    (concepto : String) (litros precio_bruto_iva importe_con_iva : ℚ) : MovComb :=
  let importe_base := importe_con_iva / (121/100)
  let bonif_iva :=
    if concepto = "GASOIL" then bonif_staroil_gasoil_iva else bonif_staroil_adblue_iva
  let descuento :=
    if concepto = "GASOIL" then litros * bonif_staroil_gasoil
    else litros * bonif_staroil_adblue
  let importe_neto := importe_base - descuento
  let precio_neto_iva := precio_bruto_iva - bonif_iva
  { vehiculo := vehiculo, fecha := fecha, concepto := concepto,
    litros := some litros, precio_litro := some precio_neto_iva,
    importe_bruto := importe_base, descuento := descuento, importe := importe_neto }

/-! ### Helper lemmas -/

theorem vehiculo_actualizar (movs : List MovComb) (bases : String → Option ℚ)
    (mov : MovComb) : (actualizar_importe_mov movs bases mov).vehiculo = mov.vehiculo := by
  unfold actualizar_importe_mov
  cases bases mov.vehiculo with
  | none => rfl
  | some base =>
    dsimp only
    split
    · rfl
    · split
      · rfl
      · rfl

theorem filtrar_mapa (f : MovComb → MovComb) (hf : ∀ m, (f m).vehiculo = m.vehiculo)
    (veh : String) (l : List MovComb) :
    (l.map f).filter (fun m => m.vehiculo == veh)
      = (l.filter (fun m => m.vehiculo == veh)).map f := by
  induction l with
  | nil => rfl
  | cons m t ih =>
    simp only [List.map_cons, List.filter_cons, hf]
    by_cases h : m.vehiculo == veh
    · simp [h, ih]
    · simp [h, ih]

theorem filtrar_mapa_vehiculo (movs : List MovComb) (bases : String → Option ℚ)
    (veh : String) :
    (actualizar_importes_valcarce movs bases).filter (fun m => m.vehiculo == veh)
      = (movimientosVehiculo movs veh).map (actualizar_importe_mov movs bases) :=
  filtrar_mapa (actualizar_importe_mov movs bases)
    (vehiculo_actualizar movs bases) veh movs

/-- C1, multi-line case, per-line formula. -/
theorem actualizar_importe_prorrateo (movs : List MovComb) (bases : String → Option ℚ)
    (veh T : _) (hT : bases veh = some T) (m : MovComb) (hm : m.vehiculo = veh)
    (hn : (movimientosVehiculo movs veh).length ≠ 1)
    (hpos : 0 < totalLitrosVehiculo movs veh) :
    (actualizar_importe_mov movs bases m).importe
      = T * (orZero m.litros / totalLitrosVehiculo movs veh) := by
  unfold actualizar_importe_mov
  rw [hm, hT]
  dsimp only
  rw [if_neg hn]
  have hpos' : 0 < (((movimientosVehiculo movs veh).map fun m => orZero m.litros)).sum := hpos
  rw [if_pos hpos']
  rfl

/-- C1 (explicit).  Valcarce fuel, per-vehicle Base Imponible total `T`
captured (`bases veh = some T`):
* exactly one fuel line for the vehicle → its net amount is set to `T`,
  its discount to gross − `T`, its unit price to `T / liters` when
  liters > 0;
* `N > 1` lines with positive total liters → each line's net amount is
  `T · (line liters / total liters)` and the prorated net amounts over
  the vehicle's lines sum to exactly `T` (hence within 0.01 €). -/
theorem valcarce_prorrateo_conserva (movs : List MovComb)
    (bases : String → Option ℚ) (veh : String) (T : ℚ)
    (hT : bases veh = some T) :
    ((movimientosVehiculo movs veh).length = 1 →
      ∀ m ∈ movs, m.vehiculo = veh →
        (actualizar_importe_mov movs bases m).importe = T ∧
        (actualizar_importe_mov movs bases m).descuento = m.importe_bruto - T ∧
        (∀ l, m.litros = some l → 0 < l →
          (actualizar_importe_mov movs bases m).precio_litro = some (T / l)))
    ∧ (1 < (movimientosVehiculo movs veh).length →
        0 < totalLitrosVehiculo movs veh →
        (∀ m ∈ movs, m.vehiculo = veh →
          (actualizar_importe_mov movs bases m).importe
            = T * (orZero m.litros / totalLitrosVehiculo movs veh)) ∧
        (((actualizar_importes_valcarce movs bases).filter
            (fun m => m.vehiculo == veh)).map (fun m => m.importe)).sum = T) := by
  constructor
  · intro hlen m _ hm
    unfold actualizar_importe_mov
    rw [hm, hT]
    dsimp only
    rw [if_pos hlen]
    refine ⟨rfl, rfl, ?_⟩
    intro l hl hlpos
    simp [hl, hlpos]
  · intro hlen hpos
    refine ⟨fun m hmem hm => actualizar_importe_prorrateo movs bases veh T hT m hm
      (by omega) hpos, ?_⟩
    rw [filtrar_mapa_vehiculo]
    rw [List.map_map]
    have hformula : ∀ m ∈ movimientosVehiculo movs veh,
        ((fun m => m.importe) ∘ actualizar_importe_mov movs bases) m
          = (T / totalLitrosVehiculo movs veh) * orZero m.litros := by
      intro m hmem
      have hm : m.vehiculo = veh := by
        have := List.of_mem_filter hmem
        exact of_decide_eq_true this
      have := actualizar_importe_prorrateo movs bases veh T hT m hm (by omega) hpos
      simp only [Function.comp_apply, this]
      ring
    rw [List.map_congr_left hformula]
    rw [List.sum_map_mul_left]
    have htot : ((movimientosVehiculo movs veh).map fun m => orZero m.litros).sum
        = totalLitrosVehiculo movs veh := rfl
    rw [htot, div_mul_cancel₀ T (ne_of_gt hpos)]

/-- Witness for C1: vehicle `"MTY"` with two lines of 100 L and 300 L and
Base Imponible 400 €; the prorated net amounts sum to exactly 400. -/
theorem valcarce_prorrateo_conserva_witness :
    (((actualizar_importes_valcarce
        [⟨"MTY", none, "GASOIL", some 100, some (6/5), 130, 0, 0⟩,
         ⟨"MTY", none, "GASOIL", some 300, some (6/5), 390, 0, 0⟩]
        (fun v => if v = "MTY" then some 400 else none)).filter
        (fun m => m.vehiculo == "MTY")).map (fun m => m.importe)).sum = 400 :=
  ((valcarce_prorrateo_conserva
      [⟨"MTY", none, "GASOIL", some 100, some (6/5), 130, 0, 0⟩,
       ⟨"MTY", none, "GASOIL", some 300, some (6/5), 390, 0, 0⟩]
      (fun v => if v = "MTY" then some 400 else none) "MTY" 400 (by decide)).2
    (by decide)
    (by norm_num [totalLitrosVehiculo, movimientosVehiculo, orZero])).2

/-- C10 (implicit).  Valcarce fuel proration: when a vehicle has more than
one fuel line and the lines' liter quantities sum to zero, the proration
step is skipped entirely — the movement is returned unchanged (so `importe`
and `descuento` keep their initial value 0), and no division is evaluated
(the unit-price division being guarded by a liters > 0 check on every
path of `actualizar_importe_mov`). -/
theorem valcarce_litros_cero_sin_cambio (movs : List MovComb)
    (bases : String → Option ℚ) (mov : MovComb)
    (hn : 1 < (movimientosVehiculo movs mov.vehiculo).length)
    (h0 : totalLitrosVehiculo movs mov.vehiculo = 0) :
    actualizar_importe_mov movs bases mov = mov := by
  unfold actualizar_importe_mov
  cases bases mov.vehiculo with
  | none => rfl
  | some base =>
    dsimp only
    rw [if_neg (by omega)]
    have h0' : ¬ 0 < (((movimientosVehiculo movs mov.vehiculo).map
        fun m => orZero m.litros)).sum := by
      have : (((movimientosVehiculo movs mov.vehiculo).map
          fun m => orZero m.litros)).sum = 0 := h0
      rw [this]
      exact lt_irrefl 0
    rw [if_neg h0']

/-- Witness for C10: two lines of the same vehicle, one with `litros = None`
and one with 0 liters; the first movement is returned unchanged. -/
theorem valcarce_litros_cero_sin_cambio_witness :
    actualizar_importe_mov
      [⟨"MJC", none, "GASOIL", none, none, 50, 0, 0⟩,
       ⟨"MJC", none, "GASOIL", some 0, none, 70, 0, 0⟩]
      (fun v => if v = "MJC" then some 100 else none)
      ⟨"MJC", none, "GASOIL", none, none, 50, 0, 0⟩
      = ⟨"MJC", none, "GASOIL", none, none, 50, 0, 0⟩ :=
  valcarce_litros_cero_sin_cambio _ _ _ (by decide)
    (by norm_num [totalLitrosVehiculo, movimientosVehiculo, orZero])

/-- C3 (explicit).  StarOil fuel line with liters `L`, VAT-inclusive gross
unit price `P` and VAT-inclusive gross amount `G`: recorded net base is
`G/1.21`; discount is `L·(0.165/1.21)` for gasoil and `L·(0.30/1.21)` for
AdBlue; net amount is net base minus discount; unit price is `P` minus the
VAT-inclusive per-liter rebate (0.165 resp. 0.30).  Scenario: `L = 200`,
`G = 200.06` yields net base 165.34, discount 27.27, net amount 138.07,
each to 0.01 €. -/
theorem staroil_linea_importes (veh : String) (f : Option String) (L P G : ℚ) :
    ((parsear_staroil_linea veh f "GASOIL" L P G).importe_bruto = G / (121/100) ∧
     (parsear_staroil_linea veh f "GASOIL" L P G).descuento
        = L * ((165/1000) / (121/100)) ∧
     (parsear_staroil_linea veh f "GASOIL" L P G).importe
        = G / (121/100) - L * ((165/1000) / (121/100)) ∧
     (parsear_staroil_linea veh f "GASOIL" L P G).precio_litro = some (P - 165/1000)) ∧
    ((parsear_staroil_linea veh f "ADBLUE" L P G).importe_bruto = G / (121/100) ∧
     (parsear_staroil_linea veh f "ADBLUE" L P G).descuento
        = L * ((30/100) / (121/100)) ∧
     (parsear_staroil_linea veh f "ADBLUE" L P G).importe
        = G / (121/100) - L * ((30/100) / (121/100)) ∧
     (parsear_staroil_linea veh f "ADBLUE" L P G).precio_litro = some (P - 30/100)) ∧
    ((16534/100 - 1/100 ≤ (parsear_staroil_linea veh f "GASOIL" 200 P (20006/100)).importe_bruto ∧
      (parsear_staroil_linea veh f "GASOIL" 200 P (20006/100)).importe_bruto ≤ 16534/100 + 1/100) ∧
     (2727/100 - 1/100 ≤ (parsear_staroil_linea veh f "GASOIL" 200 P (20006/100)).descuento ∧
      (parsear_staroil_linea veh f "GASOIL" 200 P (20006/100)).descuento ≤ 2727/100 + 1/100) ∧
     (13807/100 - 1/100 ≤ (parsear_staroil_linea veh f "GASOIL" 200 P (20006/100)).importe ∧
      (parsear_staroil_linea veh f "GASOIL" 200 P (20006/100)).importe ≤ 13807/100 + 1/100)) := by
  refine ⟨⟨rfl, ?_, ?_, rfl⟩, ⟨rfl, ?_, ?_, rfl⟩, ?_⟩
  · simp [parsear_staroil_linea, bonif_staroil_gasoil, bonif_staroil_gasoil_iva]
  · simp [parsear_staroil_linea, bonif_staroil_gasoil, bonif_staroil_gasoil_iva]
  · simp [parsear_staroil_linea, bonif_staroil_adblue, bonif_staroil_adblue_iva]
  · simp [parsear_staroil_linea, bonif_staroil_adblue, bonif_staroil_adblue_iva]
  · refine ⟨⟨?_, ?_⟩, ⟨?_, ?_⟩, ⟨?_, ?_⟩⟩ <;>
      simp [parsear_staroil_linea, bonif_staroil_gasoil, bonif_staroil_gasoil_iva] <;>
      norm_num

/-! ## String helpers shared by the parsers

Python's `str.upper()` and the substring operator `in`.  `Char.toUpper`
only upcases ASCII letters; the rule patterns and provider markers of the
sources are pure ASCII, so this matches Python's behaviour on every string
the theorems below touch. -/

/-- Python `s.upper()`. -/
def aMayusculas (s : String) : String := ⟨s.data.map Char.toUpper⟩

def esPrefijo : List Char → List Char → Bool
  | [], _ => true
  | _ :: _, [] => false
  | a :: as, b :: bs => a == b && esPrefijo as bs

def esInfijo (pat : List Char) : List Char → Bool
  | [] => esPrefijo pat []
  | c :: t => esPrefijo pat (c :: t) || esInfijo pat t

/-- Python `pat in s` (substring containment). -/
def contiene (s pat : String) : Bool := esInfijo pat.data s.data

/-! ## Auto-categorization (`auto_categorizar`, `importador.py` lines 174-228) -/

/-- A row of the `reglas` table as loaded by `get_reglas` (`database.py`):
`categoria_id` is declared `NOT NULL` but the engine re-checks truthiness,
so we keep it optional. -/
structure Regla where
  patron : String
  categoria_id : Option String
  vehiculo_id : Option String
deriving DecidableEq, Repr

/-- An input row of the DataFrame handed to `auto_categorizar`:
`importe = none` models a cell whose `float(...)` conversion fails
(the code then uses `0.0`). -/
structure MovBanco where
  descripcion : String
  importe : Option ℚ
deriving DecidableEq, Repr

/-- An output row of `auto_categorizar`. -/
structure MovCategorizado where
  descripcion : String
  importe : Option ℚ
  categoria_id : Option String
  vehiculo_id : Option String
  necesita_revision : Bool
deriving DecidableEq, Repr

/-- Python truthiness of `categoria_encontrada` (a string or `None`). -/
def truthyStr : Option String → Bool
  | none => false
  | some s => !(s == "")

/-- Body of the per-row loop of `auto_categorizar` (lines 196-226):
uppercase the description, scan the ordered rules (patterns uppercased at
load time, line 185) for first substring match; on a truthy matched
category assign it together with the rule's vehicle and flag review iff
`importe < 0 and vehiculo is None and categoria != 'INGRESO'`; otherwise
fall back to `INGRESO`/`OTRO` by amount sign with review always set. -/
def auto_categorizar_mov (reglas : List Regla) (m : MovBanco) : MovCategorizado :=
  let descripcion := aMayusculas m.descripcion
  let importe := m.importe.getD 0
  let sin_regla : MovCategorizado :=
    { descripcion := m.descripcion, importe := m.importe,
      categoria_id := some (if 0 < importe then "INGRESO" else "OTRO"),
      vehiculo_id := none, necesita_revision := true }
  match (reglas.map (fun r => (aMayusculas r.patron, r.categoria_id, r.vehiculo_id))).find?
      (fun r => contiene descripcion r.1) with
  | some (_, categoria, vehiculo) =>
    if truthyStr categoria then
      { descripcion := m.descripcion, importe := m.importe,
        categoria_id := categoria, vehiculo_id := vehiculo,
        necesita_revision :=
          decide (importe < 0) && vehiculo.isNone && !(categoria == some "INGRESO") }
    else sin_regla
  | none => sin_regla

/-- `auto_categorizar` applied to the whole DataFrame. -/
def auto_categorizar (reglas : List Regla) (df : List MovBanco) : List MovCategorizado :=
  df.map (auto_categorizar_mov reglas)

/-- The ids of the seeded categories with `tipo = 'GASTO'`
(`database.py`, the `categorias` seed list). -/
def categorias_gasto : List String :=
  ["SAL", "SS", "COMB", "TALL", "PEAJ", "DIET", "NEUM", "LEAS", "FIN", "SEG",
   "TEL", "ELEC", "ADM", "ASOC", "IMP", "VISA", "SOCIO", "OTRO"]

/-- Whether a category id is an expense category. -/
def es_categoria_gasto (c : String) : Bool := categorias_gasto.contains c

/-- Counterexample to C4 as stated: the bank movement `"ABONO SOLRED"`
with amount +50 matches the seeded rule `("SOLRED", COMB, no vehicle)`;
`COMB` is an expense category and the rule assigns no vehicle, yet
`necesita_revision` is `false`, because the code additionally requires
the amount to be negative (`importe < 0`, `importador.py` line 218). -/
theorem auto_categorizar_gasto_contraejemplo :
    es_categoria_gasto "COMB" = true ∧
    (auto_categorizar_mov [⟨"SOLRED", some "COMB", none⟩]
        ⟨"ABONO SOLRED", some 50⟩).categoria_id = some "COMB" ∧
    (auto_categorizar_mov [⟨"SOLRED", some "COMB", none⟩]
        ⟨"ABONO SOLRED", some 50⟩).vehiculo_id = none ∧
    (auto_categorizar_mov [⟨"SOLRED", some "COMB", none⟩]
        ⟨"ABONO SOLRED", some 50⟩).necesita_revision = false := by
  refine ⟨rfl, ?_, ?_, ?_⟩ <;> decide

/-- C4, amended: if the matched rule's category is an expense category,
the rule assigns no vehicle, **and the movement's amount is negative**,
then the movement is flagged `necesita_revision = true`.  (Expense
categories never equal `INGRESO`, so the code's `!= 'INGRESO'` test is
implied.) -/
theorem auto_categorizar_gasto_sin_vehiculo_revision
    (reglas : List Regla) (m : MovBanco) (pat : String) (c : String)
    (hfind : (reglas.map (fun r => (aMayusculas r.patron, r.categoria_id, r.vehiculo_id))).find?
        (fun r => contiene (aMayusculas m.descripcion) r.1) = some (pat, some c, none))
    (hgasto : es_categoria_gasto c = true)
    (hneg : m.importe.getD 0 < 0) :
    (auto_categorizar_mov reglas m).necesita_revision = true := by
  have hc : ¬ c = "INGRESO" := by
    intro h
    rw [h] at hgasto
    exact absurd hgasto (by decide)
  have hc' : c ≠ "" := by
    intro h
    rw [h] at hgasto
    exact absurd hgasto (by decide)
  simp only [auto_categorizar_mov, hfind]
  rw [if_pos (by simp [truthyStr, hc'])]
  simp [hneg, hc]

/-- Witness for the amended C4: same rule, negative amount. -/
theorem auto_categorizar_gasto_sin_vehiculo_revision_witness :
    (auto_categorizar_mov [⟨"SOLRED", some "COMB", none⟩]
        ⟨"PAGO SOLRED", some (-200)⟩).necesita_revision = true :=
  auto_categorizar_gasto_sin_vehiculo_revision
    [⟨"SOLRED", some "COMB", none⟩] ⟨"PAGO SOLRED", some (-200)⟩
    "SOLRED" "COMB" (by decide) (by decide) (by decide)

/-- C5 (explicit).  A movement matching no rule pattern is assigned
`INGRESO` when its amount is positive and `OTRO` when negative, with
`necesita_revision = true` in both cases; and every movement leaves
`auto_categorizar_mov` with a non-null category. -/
theorem auto_categorizar_sin_regla (reglas : List Regla) (m : MovBanco) :
    ((reglas.map (fun r => (aMayusculas r.patron, r.categoria_id, r.vehiculo_id))).find?
        (fun r => contiene (aMayusculas m.descripcion) r.1) = none →
      (0 < m.importe.getD 0 →
        (auto_categorizar_mov reglas m).categoria_id = some "INGRESO") ∧
      (m.importe.getD 0 < 0 →
        (auto_categorizar_mov reglas m).categoria_id = some "OTRO") ∧
      (auto_categorizar_mov reglas m).necesita_revision = true)
    ∧ ∃ c, (auto_categorizar_mov reglas m).categoria_id = some c := by
  constructor
  · intro hfind
    simp only [auto_categorizar_mov, hfind]
    refine ⟨fun hpos => ?_, fun hneg => ?_, trivial⟩
    · rw [if_pos hpos]
    · rw [if_neg (by exact not_lt_of_gt hneg)]
  · simp only [auto_categorizar_mov]
    cases hfind : (reglas.map (fun r => (aMayusculas r.patron, r.categoria_id, r.vehiculo_id))).find?
        (fun r => contiene (aMayusculas m.descripcion) r.1) with
    | none => exact ⟨_, rfl⟩
    | some r =>
      obtain ⟨pat, categoria, vehiculo⟩ := r
      dsimp only
      cases hcat : truthyStr categoria with
      | false => rw [if_neg (by simp [hcat])]; exact ⟨_, rfl⟩
      | true =>
        rw [if_pos (by simp [hcat])]
        cases categoria with
        | none => exact absurd hcat (by simp [truthyStr])
        | some c => exact ⟨c, rfl⟩

/-- Witness for C5: no rule matches `"TRANSFERENCIA RECIBIDA"`; positive
amount yields `INGRESO` with review flag, and the category is non-null. -/
theorem auto_categorizar_sin_regla_witness :
    (auto_categorizar_mov [⟨"SOLRED", some "COMB", none⟩]
        ⟨"TRANSFERENCIA RECIBIDA", some 1500⟩).categoria_id = some "INGRESO" ∧
    (auto_categorizar_mov [⟨"SOLRED", some "COMB", none⟩]
        ⟨"TRANSFERENCIA RECIBIDA", some 1500⟩).necesita_revision = true :=
  ⟨((auto_categorizar_sin_regla [⟨"SOLRED", some "COMB", none⟩]
      ⟨"TRANSFERENCIA RECIBIDA", some 1500⟩).1 (by decide)).1 (by decide),
   ((auto_categorizar_sin_regla [⟨"SOLRED", some "COMB", none⟩]
      ⟨"TRANSFERENCIA RECIBIDA", some 1500⟩).1 (by decide)).2.2⟩

/-! ## Per-vehicle fuel summaries
(`calcular_resumen_vehiculos`, `importador_facturas.py` lines 609-663).

The Python dict `resumen` is modelled as an association list in insertion
order; missing keys are appended, existing ones updated in place. -/

/-- The accumulator record built during the first loop (including the
auxiliary key `_suma_precio_litros`, deleted before returning). -/
structure AccResumen where
  litros_gasoil : ℚ
  litros_adblue : ℚ
  importe_gasoil : ℚ
  importe_adblue : ℚ
  importe_bruto_gasoil : ℚ
  importe_bruto_adblue : ℚ
  descuento_total : ℚ
  num_repostajes : ℕ
  suma_precio_litros : ℚ
deriving DecidableEq, Repr

/-- The dict initialised for a newly seen vehicle (lines 615-628). -/
def accInicial : AccResumen := ⟨0, 0, 0, 0, 0, 0, 0, 0, 0⟩

/-- The final per-vehicle summary (after `importe_neto`/`precio_medio_litro`
are computed and `_suma_precio_litros` deleted, lines 650-661). -/
structure Resumen where
  litros_gasoil : ℚ
  litros_adblue : ℚ
  importe_gasoil : ℚ
  importe_adblue : ℚ
  importe_bruto_gasoil : ℚ
  importe_bruto_adblue : ℚ
  descuento_total : ℚ
  importe_neto : ℚ
  precio_medio_litro : ℚ
  num_repostajes : ℕ
deriving DecidableEq, Repr

/-- Python dict lookup on an association list. -/
def buscarResumen {A : Type} (k : String) : List (String × A) → Option A
  | [] => none
  | (k', v) :: t => if k' = k then some v else buscarResumen k t

/-- Python in-place update of the entry at key `k`. -/
def modificarResumen {A : Type} (k : String) (f : A → A) :
    List (String × A) → List (String × A)
  | [] => []
  | (k', v) :: t =>
    if k' = k then (k', f v) :: t else (k', v) :: modificarResumen k f t

/-- One mov's contribution to its vehicle's accumulator (lines 630-648):
everything whose `concepto` is not `'GASOIL'` is counted as AdBlue, per
the code's `else` branch. -/
def acumular (r : AccResumen) (mov : MovComb) : AccResumen :=
  let litros := orZero mov.litros
  let importe := mov.importe
  let importe_bruto := mov.importe_bruto
  let descuento := mov.descuento
  let precio_litro := orZero mov.precio_litro
  if mov.concepto = "GASOIL" then
    { r with litros_gasoil := r.litros_gasoil + litros,
             importe_gasoil := r.importe_gasoil + importe,
             importe_bruto_gasoil := r.importe_bruto_gasoil + importe_bruto,
             descuento_total := r.descuento_total + descuento,
             num_repostajes := r.num_repostajes + 1,
             suma_precio_litros := r.suma_precio_litros + precio_litro * litros }
  else
    { r with litros_adblue := r.litros_adblue + litros,
             importe_adblue := r.importe_adblue + importe,
             importe_bruto_adblue := r.importe_bruto_adblue + importe_bruto,
             descuento_total := r.descuento_total + descuento,
             num_repostajes := r.num_repostajes + 1,
             suma_precio_litros := r.suma_precio_litros + precio_litro * litros }

/-- One iteration of the first loop (lines 613-648): create the entry if
absent, then accumulate. -/
def paso_resumen (res : List (String × AccResumen)) (mov : MovComb) :
    List (String × AccResumen) :=
  let res' :=
    if (buscarResumen mov.vehiculo res).isSome then res
    else res ++ [(mov.vehiculo, accInicial)]
  modificarResumen mov.vehiculo (fun r => acumular r mov) res'

/-- The second loop's body (lines 651-661): totals, weighted mean price
when liters are positive (`precio_medio_litro` keeps its initial 0
otherwise), auxiliary key dropped. -/
def finalizarResumen (r : AccResumen) : Resumen :=
  let importe_neto := r.importe_gasoil + r.importe_adblue
  let total_litros := r.litros_gasoil + r.litros_adblue
  let precio_medio :=
    if 0 < total_litros then r.suma_precio_litros / total_litros else 0
  ⟨r.litros_gasoil, r.litros_adblue, r.importe_gasoil, r.importe_adblue,
   r.importe_bruto_gasoil, r.importe_bruto_adblue, r.descuento_total,
   importe_neto, precio_medio, r.num_repostajes⟩

/-- `calcular_resumen_vehiculos`. -/
def calcular_resumen_vehiculos (movs : List MovComb) : List (String × Resumen) :=
  (movs.foldl paso_resumen []).map (fun p => (p.1, finalizarResumen p.2))

/-- Accumulating a list of movements into a single accumulator. -/
def agregarLista (r : AccResumen) (ms : List MovComb) : AccResumen :=
  ms.foldl acumular r

/-! ### Association-list lemmas -/

theorem buscar_modificar_self {A : Type} (k : String) (f : A → A)
    (l : List (String × A)) :
    buscarResumen k (modificarResumen k f l) = (buscarResumen k l).map f := by
  induction l with
  | nil => rfl
  | cons p t ih =>
    obtain ⟨k', v⟩ := p
    by_cases h : k' = k
    · simp [modificarResumen, buscarResumen, h]
    · simp [modificarResumen, buscarResumen, h, ih]

theorem buscar_modificar_ne {A : Type} (v k : String) (f : A → A)
    (l : List (String × A)) (h : k ≠ v) :
    buscarResumen v (modificarResumen k f l) = buscarResumen v l := by
  induction l with
  | nil => rfl
  | cons p t ih =>
    obtain ⟨k', w⟩ := p
    by_cases h' : k' = k
    · subst h'
      simp [modificarResumen, buscarResumen, h]
    · simp [modificarResumen, buscarResumen, h', ih]

theorem buscar_append_uno {A : Type} (v : String) (l : List (String × A))
    (k : String) (a : A) :
    buscarResumen v (l ++ [(k, a)])
      = match buscarResumen v l with
        | some x => some x
        | none => if k = v then some a else none := by
  induction l with
  | nil => rfl
  | cons p t ih =>
    obtain ⟨k', w⟩ := p
    by_cases h : k' = v
    · simp [buscarResumen, h]
    · simp [buscarResumen, h, ih]

theorem buscar_paso_self (res : List (String × AccResumen)) (mov : MovComb) :
    buscarResumen mov.vehiculo (paso_resumen res mov)
      = some (acumular ((buscarResumen mov.vehiculo res).getD accInicial) mov) := by
  unfold paso_resumen
  cases hb : buscarResumen mov.vehiculo res with
  | some r => simp [hb, buscar_modificar_self]
  | none =>
    simp only [hb, Option.isSome_none, Bool.false_eq_true, if_false,
      buscar_modificar_self, buscar_append_uno, Option.getD]
    simp [hb, buscar_append_uno]

theorem buscar_paso_ne (res : List (String × AccResumen)) (mov : MovComb)
    (v : String) (h : mov.vehiculo ≠ v) :
    buscarResumen v (paso_resumen res mov) = buscarResumen v res := by
  unfold paso_resumen
  cases hb : buscarResumen mov.vehiculo res with
  | some r => simp [hb, buscar_modificar_ne _ _ _ _ h]
  | none =>
    simp only [hb, Option.isSome_none, Bool.false_eq_true, if_false]
    rw [buscar_modificar_ne _ _ _ _ h, buscar_append_uno]
    simp only [h, if_false]
    cases buscarResumen v res <;> rfl

/-- Characterization of the first loop: the accumulator stored for `v`
is exactly the fold of `acumular` over the movements of `v`. -/
theorem buscar_fold (movs : List MovComb) (res₀ : List (String × AccResumen))
    (v : String) :
    buscarResumen v (movs.foldl paso_resumen res₀)
      = match buscarResumen v res₀, movimientosVehiculo movs v with
        | some r, ms => some (agregarLista r ms)
        | none, [] => none
        | none, ms => some (agregarLista accInicial ms) := by
  induction movs generalizing res₀ with
  | nil =>
    cases hb : buscarResumen v res₀ with
    | some r => simp [hb, movimientosVehiculo, agregarLista]
    | none => simp [hb, movimientosVehiculo]
  | cons m t ih =>
    rw [List.foldl_cons, ih]
    by_cases hv : m.vehiculo = v
    · have hfilter : movimientosVehiculo (m :: t) v = m :: movimientosVehiculo t v := by
        simp [movimientosVehiculo, List.filter_cons, hv]
      rw [hfilter]
      have hself : buscarResumen v (paso_resumen res₀ m)
          = some (acumular ((buscarResumen v res₀).getD accInicial) m) := by
        rw [← hv]; exact buscar_paso_self res₀ m
      rw [hself]
      cases hb : buscarResumen v res₀ with
      | some r =>
        simp only [hb, Option.getD]
        rfl
      | none =>
        simp only [hb, Option.getD]
        rfl
    · have hfilter : movimientosVehiculo (m :: t) v = movimientosVehiculo t v := by
        simp [movimientosVehiculo, List.filter_cons, hv]
      rw [hfilter, buscar_paso_ne res₀ m v hv]

theorem agregar_suma_precio (ms : List MovComb) (r : AccResumen) :
    (agregarLista r ms).suma_precio_litros
      = r.suma_precio_litros
        + (ms.map (fun m => orZero m.precio_litro * orZero m.litros)).sum := by
  induction ms generalizing r with
  | nil => simp [agregarLista]
  | cons m t ih =>
    have hstep : agregarLista r (m :: t) = agregarLista (acumular r m) t := rfl
    rw [hstep, ih]
    by_cases h : m.concepto = "GASOIL" <;>
      simp [acumular, h, add_assoc]

theorem agregar_litros_total (ms : List MovComb) (r : AccResumen) :
    (agregarLista r ms).litros_gasoil + (agregarLista r ms).litros_adblue
      = (r.litros_gasoil + r.litros_adblue)
        + (ms.map (fun m => orZero m.litros)).sum := by
  induction ms generalizing r with
  | nil => simp [agregarLista]
  | cons m t ih =>
    have hstep : agregarLista r (m :: t) = agregarLista (acumular r m) t := rfl
    rw [hstep, ih]
    unfold acumular
    split <;> (dsimp only; rw [List.map_cons, List.sum_cons]; ring)

theorem buscar_mapa_resumen (v : String) (l : List (String × AccResumen)) :
    buscarResumen v (l.map (fun p => (p.1, finalizarResumen p.2)))
      = (buscarResumen v l).map finalizarResumen := by
  induction l with
  | nil => rfl
  | cons p t ih =>
    obtain ⟨k, a⟩ := p
    by_cases h : k = v
    · simp [buscarResumen, h]
    · simp [buscarResumen, h, ih]

/-- C6 (explicit).  Every vehicle summary with positive total liters has
`precio_medio_litro` equal to the quantity-weighted mean
Σ(price·liters)/Σ(liters) over the vehicle's movements. -/
theorem resumen_precio_medio_ponderado (movs : List MovComb) (veh : String)
    (r : Resumen)
    (hr : buscarResumen veh (calcular_resumen_vehiculos movs) = some r)
    (hpos : 0 < r.litros_gasoil + r.litros_adblue) :
    r.precio_medio_litro
      = ((movimientosVehiculo movs veh).map
            (fun m => orZero m.precio_litro * orZero m.litros)).sum
        / ((movimientosVehiculo movs veh).map (fun m => orZero m.litros)).sum := by
  unfold calcular_resumen_vehiculos at hr
  rw [buscar_mapa_resumen, buscar_fold movs [] veh] at hr
  simp only [buscarResumen] at hr
  cases hms : movimientosVehiculo movs veh with
  | nil =>
    rw [hms] at hr
    simp at hr
  | cons x xs =>
    rw [hms] at hr
    simp only [Option.map_some'] at hr
    rw [Option.some.injEq] at hr
    subst hr
    have hlit' : (agregarLista accInicial (x :: xs)).litros_gasoil
        + (agregarLista accInicial (x :: xs)).litros_adblue
        = ((x :: xs).map (fun m => orZero m.litros)).sum := by
      rw [agregar_litros_total]
      simp [accInicial]
    have hsuma' : (agregarLista accInicial (x :: xs)).suma_precio_litros
        = ((x :: xs).map (fun m => orZero m.precio_litro * orZero m.litros)).sum := by
      rw [agregar_suma_precio]
      simp [accInicial]
    have hpos' : 0 < (agregarLista accInicial (x :: xs)).litros_gasoil
        + (agregarLista accInicial (x :: xs)).litros_adblue := hpos
    simp only [finalizarResumen]
    rw [if_pos hpos', hsuma', hlit']

/-- Witness movements for C6: 2000 L at 1.00 €/L and 1000 L at 1.30 €/L. -/
def movsPonderado : List MovComb :=
  [⟨"MTY", none, "GASOIL", some 2000, some 1, 2000, 0, 2000⟩,
   ⟨"MTY", none, "GASOIL", some 1000, some (13/10), 1300, 0, 1300⟩]

/-- The summary computed for the witness movements. -/
def resPonderado : Resumen := ⟨3000, 0, 3300, 0, 3300, 0, 0, 3300, 11/10, 2⟩

/-- Witness for C6: the weighted average of (2000 L @ 1.00, 1000 L @ 1.30)
is 1.10 €/L, not the naive mean 1.15. -/
theorem resumen_precio_medio_ponderado_witness :
    buscarResumen "MTY" (calcular_resumen_vehiculos movsPonderado) = some resPonderado ∧
    resPonderado.precio_medio_litro
      = ((movimientosVehiculo movsPonderado "MTY").map
            (fun m => orZero m.precio_litro * orZero m.litros)).sum
        / ((movimientosVehiculo movsPonderado "MTY").map (fun m => orZero m.litros)).sum ∧
    resPonderado.precio_medio_litro = 11/10 := by
  have h1 : buscarResumen "MTY" (calcular_resumen_vehiculos movsPonderado)
      = some resPonderado := by
    norm_num [calcular_resumen_vehiculos, movsPonderado, paso_resumen,
      buscarResumen, modificarResumen, acumular, accInicial, finalizarResumen,
      orZero, resPonderado, Resumen.mk.injEq]
  exact ⟨h1,
    resumen_precio_medio_ponderado movsPonderado "MTY" resPonderado h1
      (by norm_num [resPonderado]),
    by norm_num [resPonderado]⟩

/-! ## Idempotent persistence
(`insertar_movimientos`, `database.py` lines 516-583).

The `movimientos` table is modelled as a list of rows in insertion order.
The function also creates a row in the `importaciones` table; that table
is separate bookkeeping and is modelled by passing the fresh
`importacion_id` as a parameter.  The de-duplication key is the value
triple (fecha, descripcion, importe); every movement generator of the
repository produces non-null values for these three fields, so they are
modelled as plain values (an SQL `NULL` key would evade both the unique
index and the explicit `WHERE` check). -/

/-- A movement dict handed to `insertar_movimientos`. -/
structure MovParaDB where
  fecha : String
  descripcion : String
  importe : ℚ
  categoria_id : Option String
  vehiculo_id : Option String
  referencia : Option String
deriving DecidableEq, Repr

/-- A row of the `movimientos` table (columns relevant to insertion). -/
structure FilaMovimientos where
  fecha : String
  descripcion : String
  importe : ℚ
  categoria_id : Option String
  vehiculo_id : Option String
  referencia : Option String
  importacion_id : ℕ
deriving DecidableEq, Repr

/-- `SELECT COUNT(*) FROM movimientos WHERE fecha = ? AND descripcion = ?
AND importe = ?` is positive — also the conflict test of the unique index
`idx_movimientos_unique ON movimientos(fecha, descripcion, importe)`. -/
def existe_clave (t : List FilaMovimientos) (fecha descripcion : String)
    (importe : ℚ) : Bool :=
  t.any (fun r =>
    decide (r.fecha = fecha) && decide (r.descripcion = descripcion)
      && decide (r.importe = importe))

/-- The row inserted for a movement. -/
def fila_de_mov (mov : MovParaDB) (importacion_id : ℕ) : FilaMovimientos :=
  ⟨mov.fecha, mov.descripcion, mov.importe, mov.categoria_id, mov.vehiculo_id,
   mov.referencia, importacion_id⟩

/-- The `for mov in movimientos:` loop (lines 546-578): without the unique
index an explicit existence check skips duplicates; then `INSERT OR
IGNORE` inserts, ignoring rows whose key hits the unique index when it
exists (`cursor.rowcount == 0` counted as duplicate). -/
def insertar_bucle (tiene_indice : Bool) (importacion_id : ℕ) :
    List FilaMovimientos → ℕ → ℕ → List MovParaDB →
      List FilaMovimientos × ℕ × ℕ
  | t, ins, dup, [] => (t, ins, dup)
  | t, ins, dup, mov :: resto =>
    if !tiene_indice && existe_clave t mov.fecha mov.descripcion mov.importe then
      insertar_bucle tiene_indice importacion_id t ins (dup + 1) resto
    else if tiene_indice && existe_clave t mov.fecha mov.descripcion mov.importe then
      insertar_bucle tiene_indice importacion_id t ins (dup + 1) resto
    else
      insertar_bucle tiene_indice importacion_id
        (t ++ [fila_de_mov mov importacion_id]) (ins + 1) dup resto

/-- `insertar_movimientos`: returns the new table state together with the
`insertados` and `duplicados` counters of the returned dict. -/
def insertar_movimientos (tabla : List FilaMovimientos)
    (movimientos : List MovParaDB) (tiene_indice : Bool)
    (importacion_id : ℕ) : List FilaMovimientos × ℕ × ℕ :=
  insertar_bucle tiene_indice importacion_id tabla 0 0 movimientos

theorem existe_clave_append (t l : List FilaMovimientos) (f d : String) (i : ℚ) :
    existe_clave (t ++ l) f d i = (existe_clave t f d i || existe_clave l f d i) := by
  simp [existe_clave, List.any_append]

theorem existe_clave_preservada (ti : Bool) (impid : ℕ)
    (movs : List MovParaDB) :
    ∀ (t : List FilaMovimientos) (ins dup : ℕ) (f d : String) (i : ℚ),
      existe_clave t f d i = true →
      existe_clave (insertar_bucle ti impid t ins dup movs).1 f d i = true := by
  induction movs with
  | nil => intro t ins dup f d i h; exact h
  | cons mov resto ih =>
    intro t ins dup f d i h
    unfold insertar_bucle
    split
    · exact ih t ins (dup + 1) f d i h
    · split
      · exact ih t ins (dup + 1) f d i h
      · refine ih _ (ins + 1) dup f d i ?_
        rw [existe_clave_append, h, Bool.true_or]

theorem claves_tras_insertar (ti : Bool) (impid : ℕ) (movs : List MovParaDB) :
    ∀ (t : List FilaMovimientos) (ins dup : ℕ) (mov : MovParaDB), mov ∈ movs →
      existe_clave (insertar_bucle ti impid t ins dup movs).1
        mov.fecha mov.descripcion mov.importe = true := by
  induction movs with
  | nil => intro t ins dup mov h; exact absurd h (List.not_mem_nil mov)
  | cons cabeza resto ih =>
    intro t ins dup mov h
    rcases List.mem_cons.mp h with hc | hr
    · subst hc
      unfold insertar_bucle
      split
      · rename_i hcond
        have hex : existe_clave t mov.fecha mov.descripcion mov.importe = true := by
          have := Bool.and_eq_true_iff.mp hcond
          exact this.2
        exact existe_clave_preservada ti impid resto t ins (dup + 1) _ _ _ hex
      · split
        · rename_i hcond
          have hex : existe_clave t mov.fecha mov.descripcion mov.importe = true := by
            have := Bool.and_eq_true_iff.mp hcond
            exact this.2
          exact existe_clave_preservada ti impid resto t ins (dup + 1) _ _ _ hex
        · refine existe_clave_preservada ti impid resto _ (ins + 1) dup _ _ _ ?_
          rw [existe_clave_append, Bool.or_eq_true]
          right
          simp [existe_clave, fila_de_mov]
    · unfold insertar_bucle
      split
      · exact ih t ins (dup + 1) mov hr
      · split
        · exact ih t ins (dup + 1) mov hr
        · exact ih _ (ins + 1) dup mov hr

theorem insertar_todo_duplicado (ti : Bool) (impid : ℕ) (movs : List MovParaDB) :
    ∀ (t : List FilaMovimientos) (ins dup : ℕ),
      (∀ mov ∈ movs,
        existe_clave t mov.fecha mov.descripcion mov.importe = true) →
      insertar_bucle ti impid t ins dup movs = (t, ins, dup + movs.length) := by
  induction movs with
  | nil => intro t ins dup _; rfl
  | cons mov resto ih =>
    intro t ins dup h
    have hmov : existe_clave t mov.fecha mov.descripcion mov.importe = true :=
      h mov (List.mem_cons_self mov resto)
    have hresto : ∀ m ∈ resto,
        existe_clave t m.fecha m.descripcion m.importe = true :=
      fun m hm => h m (List.mem_cons_of_mem mov hm)
    unfold insertar_bucle
    cases hti : ti with
    | true =>
      rw [hti] at ih
      rw [if_neg (by simp [hti]), if_pos (by simp [hti, hmov]),
        ih t ins (dup + 1) hresto, List.length_cons,
        show dup + 1 + resto.length = dup + (resto.length + 1) from by omega]
    | false =>
      rw [hti] at ih
      rw [if_pos (by simp [hti, hmov]), ih t ins (dup + 1) hresto,
        List.length_cons,
        show dup + 1 + resto.length = dup + (resto.length + 1) from by omega]

/-- C2 (explicit).  Persisting a movement list is idempotent on the
`movimientos` table: a second call of `insertar_movimientos` with the same
list leaves the table unchanged, inserts zero rows, and counts every row
as a duplicate — under the unique index (`tiene_indice = true`, `INSERT
OR IGNORE`) as well as under the explicit per-row existence check used
when the index could not be created. -/
theorem insertar_movimientos_idempotente (tabla : List FilaMovimientos)
    (movimientos : List MovParaDB) (tiene_indice : Bool) (impid1 impid2 : ℕ) :
    insertar_movimientos
        (insertar_movimientos tabla movimientos tiene_indice impid1).1
        movimientos tiene_indice impid2
      = ((insertar_movimientos tabla movimientos tiene_indice impid1).1,
         0, movimientos.length) := by
  unfold insertar_movimientos
  have h := insertar_todo_duplicado tiene_indice impid2 movimientos
    (insertar_bucle tiene_indice impid1 tabla 0 0 movimientos).1 0 0
    (fun mov hm => claves_tras_insertar tiene_indice impid1 movimientos
      tabla 0 0 mov hm)
  rw [h]
  simp

/-! ## Numeric token machinery shared by the PDF/CSV importers

`re.findall(r'[\d.,]+', line)`, the Spanish-to-dotted rewriting
`s.replace('.', '').replace(',', '.')`, and Python's `float`.  `float` is
modelled on the grammar `[+-]? digits [. digits]` — the only shape the
rewritten tokens of these importers can take (exponent, underscore and
infinity forms never occur); its value, the exact decimal rational, is
built with `Rat.divInt`. -/

/-- Python `s.strip()`. -/
def recortar (s : String) : String :=
  ⟨((s.data.dropWhile Char.isWhitespace).reverse.dropWhile Char.isWhitespace).reverse⟩

/-- A character matched by the class `[\d.,]`. -/
def esCharNumerico (c : Char) : Bool := c.isDigit || c == '.' || c == ','

/-- Maximal-run grouping behind `re.findall(r'[\d.,]+', s)`; `acc` holds
the current run reversed. -/
def agruparNumeros (acc : List Char) : List Char → List (List Char)
  | [] => if acc.isEmpty then [] else [acc.reverse]
  | c :: resto =>
    if esCharNumerico c then agruparNumeros (c :: acc) resto
    else if acc.isEmpty then agruparNumeros [] resto
    else acc.reverse :: agruparNumeros [] resto

/-- `re.findall(r'[\d.,]+', s)`. -/
def extraerNumeros (cs : List Char) : List (List Char) := agruparNumeros [] cs

/-- `num.replace('.', '').replace(',', '.')`. -/
def limpiarNumeroEs (cs : List Char) : List Char :=
  (cs.filter (fun c => !(c == '.'))).map (fun c => if c == ',' then '.' else c)

/-- Decimal digit string to natural number. -/
def digitosANat (cs : List Char) : ℕ :=
  cs.foldl (fun n c => 10 * n + (c.toNat - '0'.toNat)) 0

/-- Python `float(s)` on `[+-]? digits [. digits]` (at least one digit);
any other string yields `none` (Python raises `ValueError`, which the
callers catch and turn into a skipped value). -/
def flotantePython (cs : List Char) : Option ℚ :=
  let negyresto : Bool × List Char :=
    match cs with
    | '-' :: r => (true, r)
    | '+' :: r => (false, r)
    | r => (false, r)
  let neg := negyresto.1
  let resto := negyresto.2
  let entera := resto.takeWhile (fun c => !(c == '.'))
  let fraccion := (resto.dropWhile (fun c => !(c == '.'))).drop 1
  if entera.all Char.isDigit && fraccion.all Char.isDigit
      && !(entera.isEmpty && fraccion.isEmpty) then
    let n : ℤ := (digitosANat entera * 10 ^ fraccion.length + digitosANat fraccion : ℕ)
    some (Rat.divInt (if neg then -n else n) ((10 : ℤ) ^ fraccion.length))
  else none

/-! ## Payroll parser
(`parsear_pdf_costes_laborales`, `importador_costes.py` lines 22-100).

The filename month extraction and the page-text loop are upstream of the
per-line logic; `mes` is passed in and the file is a list of lines. -/

/-- The static `TRABAJADORES` worker → (name, vehicle) table. -/
def TRABAJADORES : List (ℕ × String × String) :=
  [(1, "SEVERINO", "MLB"), (2, "JOSE MANUEL", "LVX"), (3, "CARLOS", "MJC"),
   (4, "JESUS", "MTY"), (5, "MERCEDES BEGOÑA", "COMÚN"), (8, "SUSANA", "COMÚN")]

/-- `trabajador_id in TRABAJADORES` plus the lookup. -/
def buscarTrabajador (tid : ℕ) : Option (String × String) :=
  (TRABAJADORES.find? (fun p => p.1 == tid)).map (fun p => p.2)

/-- One parsed payroll row. -/
structure ResultadoCoste where
  mes : String
  trabajador_id : ℕ
  nombre : String
  vehiculo_id : String
  bruto : ℚ
  ss_trabajador : ℚ
  irpf : ℚ
  liquido : ℚ
  ss_empresa : ℚ
  coste_total : ℚ
deriving DecidableEq, Repr

/-- `re.match(r'^(\d)\s+(.+)', linea)` on the stripped line: a leading
digit, at least one whitespace character, and at least one further
character (`.+` may consume trailing whitespace after backtracking, so
any non-empty tail qualifies). -/
def cabeceraTrabajador : List Char → Option ℕ
  | c :: w :: resto =>
    if c.isDigit && w.isWhitespace && !resto.isEmpty then
      some (c.toNat - '0'.toNat)
    else none
  | _ => none

/-- All numeric tokens of the line converted through the Spanish format
and filtered to positive values (`if val > 0`).  Note the tokens come
from the **whole** line (`re.findall(r'[\d.,]+', linea)`), so the leading
worker-id digit itself is the first token. -/
def valoresPositivos (cs : List Char) : List ℚ :=
  ((extraerNumeros cs).filterMap (fun t => flotantePython (limpiarNumeroEs t))).filter
    (fun v => decide (0 < v))

/-- The per-line body of `parsear_pdf_costes_laborales` (lines 48-95):
returns the appended result record, or `none` when the line is skipped. -/
def parsearLineaCostes (mes : String) (linea : String) : Option ResultadoCoste :=
  let l := recortar linea
  match cabeceraTrabajador l.data with
  | none => none
  | some tid =>
    match buscarTrabajador tid with
    | none => none
    | some nv =>
      let valores := valoresPositivos l.data
      if 6 ≤ valores.length then
        some { mes := mes, trabajador_id := tid, nombre := nv.1, vehiculo_id := nv.2,
               bruto := valores.getD 0 0, ss_trabajador := valores.getD 1 0,
               irpf := valores.getD 2 0, liquido := valores.getD 3 0,
               ss_empresa := valores.getD 4 0, coste_total := valores.getD 5 0 }
      else none

/-- The whole-file loop: results accumulated over the lines. -/
def parsear_pdf_costes_laborales (mes : String) (lineas : List String) :
    List ResultadoCoste :=
  lineas.filterMap (parsearLineaCostes mes)

/-- C7 (explicit).  A text line beginning with a known single-digit worker
id yields a result record iff at least six positive numeric tokens are
extracted from the line (fewer — e.g. four — produce no record, never a
padded one), and an accepted row's first six positive tokens are assigned
positionally to gross, employee-SS, withholding tax, net, employer-SS and
total cost. -/
theorem costes_linea_seis_tokens (mes linea : String) (tid : ℕ)
    (h1 : cabeceraTrabajador (recortar linea).data = some tid)
    (h2 : (buscarTrabajador tid).isSome = true) :
    ((parsearLineaCostes mes linea).isSome ↔
      6 ≤ (valoresPositivos (recortar linea).data).length)
    ∧ (∀ rec, parsearLineaCostes mes linea = some rec →
        rec.bruto = (valoresPositivos (recortar linea).data).getD 0 0 ∧
        rec.ss_trabajador = (valoresPositivos (recortar linea).data).getD 1 0 ∧
        rec.irpf = (valoresPositivos (recortar linea).data).getD 2 0 ∧
        rec.liquido = (valoresPositivos (recortar linea).data).getD 3 0 ∧
        rec.ss_empresa = (valoresPositivos (recortar linea).data).getD 4 0 ∧
        rec.coste_total = (valoresPositivos (recortar linea).data).getD 5 0) := by
  obtain ⟨nv, hnv⟩ := Option.isSome_iff_exists.mp h2
  constructor
  · simp only [parsearLineaCostes, h1, hnv]
    by_cases h6 : 6 ≤ (valoresPositivos (recortar linea).data).length
    · simp [h6]
    · simp [h6]
  · intro rec hrec
    simp only [parsearLineaCostes, h1, hnv] at hrec
    by_cases h6 : 6 ≤ (valoresPositivos (recortar linea).data).length
    · rw [if_pos h6] at hrec
      obtain ⟨rfl⟩ := Option.some.injEq .. ▸ hrec.symm
      exact ⟨rfl, rfl, rfl, rfl, rfl, rfl⟩
    · rw [if_neg h6] at hrec
      exact absurd hrec (by simp)

/-- Witness for C7, accepting side: worker 3's line carries seven positive
tokens (the worker id itself plus six monetary values), so a record is
produced and the six payroll fields receive the first six positive tokens
of the line in order. -/
theorem costes_linea_seis_tokens_witness :
    (parsearLineaCostes "2025-01"
        "3 CARLOS 1.500,00 95,25 210,50 1.194,25 495,00 1.995,00").isSome = true ∧
    (parsearLineaCostes "2025-01"
        "3 CARLOS 95,25 210,50 1.194,25 495,00").isSome = false := by
  constructor
  · exact (costes_linea_seis_tokens "2025-01"
      "3 CARLOS 1.500,00 95,25 210,50 1.194,25 495,00 1.995,00" 3
      (by decide) (by decide)).1.mpr (by decide)
  · have h := (costes_linea_seis_tokens "2025-01"
      "3 CARLOS 95,25 210,50 1.194,25 495,00" 3 (by decide) (by decide)).1
    rw [← Bool.not_eq_true]
    intro hs
    exact absurd (h.mp hs) (by decide)

/-! ## Abanca CSV cleaning
(`parsear_csv_abanca` and its helpers, `importador.py` lines 22-171).

Byte decoding, header detection and the pandas column-synonym mapping are
upstream of the claim; the input here is the DataFrame restricted to the
canonical raw string columns {fecha, descripcion, importe} (`dtype=str`,
missing cells as `none`), and the embedding covers the cleaning steps of
lines 107-123. -/

/-- A raw CSV row after column mapping. -/
structure FilaCSV where
  fecha : Option String
  descripcion : Option String
  importe : Option String
deriving DecidableEq, Repr

/-- A cleaned output row. -/
structure FilaLimpia where
  fecha : Option String
  descripcion : String
  importe : Option ℚ
deriving DecidableEq, Repr

/-- `_parsear_importe_espanol` (lines 126-139). -/
def parsear_importe_espanol (valor : Option String) : Option ℚ :=
  match valor with
  | none => none
  | some v =>
    let s := recortar v
    if s.data.isEmpty || s == "nan" || s == "None" then none
    else flotantePython (limpiarNumeroEs s.data)

/-- Python `str.split(sep)` on character lists. -/
def separarEn (sep : Char) : List Char → List (List Char)
  | [] => [[]]
  | c :: resto =>
    let r := separarEn sep resto
    if c == sep then [] :: r
    else
      match r with
      | [] => [[c]]
      | h :: t => (c :: h) :: t

/-- A variable-width `strptime` numeric field: 1 to `maxLen` digits — the
shape of CPython's `%d` (`3[01]|[12]\d|0[1-9]|[1-9]`) and `%m`
(`1[0-2]|0[1-9]|[1-9]`); the value restrictions those patterns impose are
checked in `construirFecha` together with `datetime`'s own validation,
with the same accept/reject outcome. -/
def campoNumerico (cs : List Char) (maxLen : ℕ) : Option ℕ :=
  if !cs.isEmpty && cs.length ≤ maxLen && cs.all Char.isDigit then
    some (digitosANat cs)
  else none

/-- A fixed-width `strptime` numeric field: exactly `len` digits — the
shape of CPython's `%Y` (`\d\d\d\d`) and `%y` (`\d\d`). -/
def campoNumericoExacto (cs : List Char) (len : ℕ) : Option ℕ :=
  if cs.length = len && cs.all Char.isDigit then
    some (digitosANat cs)
  else none

def esBisiesto (y : ℕ) : Bool := (y % 4 == 0 && !(y % 100 == 0)) || y % 400 == 0

def diasEnMes (m y : ℕ) : ℕ :=
  if m = 2 then (if esBisiesto y then 29 else 28)
  else if m = 4 ∨ m = 6 ∨ m = 9 ∨ m = 11 then 30 else 31

/-- `strftime('%m')`/`strftime('%d')`: two digits, zero padded. -/
def dosDigitos (n : ℕ) : List Char :=
  [Char.ofNat (48 + n / 10 % 10), Char.ofNat (48 + n % 10)]

/-- `strftime('%Y')` as CPython delegates it to the platform (glibc):
the year's decimal digits with no zero padding (a year below 1000 — only
reachable from an explicitly zero-padded `%Y` input — prints short). -/
def digitosAnio (y : ℕ) : List Char :=
  if 1000 ≤ y then
    [Char.ofNat (48 + y / 1000 % 10), Char.ofNat (48 + y / 100 % 10),
     Char.ofNat (48 + y / 10 % 10), Char.ofNat (48 + y % 10)]
  else if 100 ≤ y then
    [Char.ofNat (48 + y / 100 % 10), Char.ofNat (48 + y / 10 % 10),
     Char.ofNat (48 + y % 10)]
  else if 10 ≤ y then
    [Char.ofNat (48 + y / 10 % 10), Char.ofNat (48 + y % 10)]
  else [Char.ofNat (48 + y % 10)]

/-- `datetime` validity check (month 1-12, day within the month, year in
`[MINYEAR, MAXYEAR]`) followed by `strftime('%Y-%m-%d')`. -/
def construirFecha (y m d : ℕ) : Option String :=
  if 1 ≤ y && y ≤ 9999 && 1 ≤ m && m ≤ 12 && 1 ≤ d && d ≤ diasEnMes m y then
    some ⟨digitosAnio y ++ '-' :: dosDigitos m ++ '-' :: dosDigitos d⟩
  else none

/-- `strptime` with format `%d<sep>%m<sep>%Y` (or `%y` when `anioCorto`):
day/month take 1-2 digits, the year exactly 4 digits (`%Y`) or exactly 2
(`%y`, pivoting at 69 as in `time.strptime`), the whole string must be
consumed, and the date must be valid. -/
def probarFormatoDMA (sep : Char) (anioCorto : Bool) (cs : List Char) :
    Option String :=
  match separarEn sep cs with
  | [dc, mc, yc] =>
    match campoNumerico dc 2, campoNumerico mc 2,
        campoNumericoExacto yc (if anioCorto then 2 else 4) with
    | some d, some m, some y =>
      let anio := if anioCorto then (if y ≤ 68 then 2000 + y else 1900 + y) else y
      construirFecha anio m d
    | _, _, _ => none
  | _ => none

/-- `strptime` with format `%Y-%m-%d`. -/
def probarFormatoAMD (sep : Char) (cs : List Char) : Option String :=
  match separarEn sep cs with
  | [yc, mc, dc] =>
    match campoNumericoExacto yc 4, campoNumerico mc 2, campoNumerico dc 2 with
    | some y, some m, some d => construirFecha y m d
    | _, _, _ => none
  | _ => none

/-- `_parsear_fecha` (lines 142-171): the format list
`['%d/%m/%Y', '%d-%m-%Y', '%Y-%m-%d', '%d/%m/%y', '%d-%m-%y']` tried in
order, first success wins, unparseable → `none`. -/
def parsear_fecha (valor : Option String) : Option String :=
  match valor with
  | none => none
  | some v =>
    let s := recortar v
    if s.data.isEmpty || s == "nan" || s == "None" then none
    else
      match probarFormatoDMA '/' false s.data with
      | some f => some f
      | none =>
        match probarFormatoDMA '-' false s.data with
        | some f => some f
        | none =>
          match probarFormatoAMD '-' s.data with
          | some f => some f
          | none =>
            match probarFormatoDMA '/' true s.data with
            | some f => some f
            | none => probarFormatoDMA '-' true s.data

/-- Python's string `<=`: code-point lexicographic order on characters. -/
def menorIgualLista : List Char → List Char → Bool
  | [], _ => true
  | _ :: _, [] => false
  | a :: as, b :: bs => if a = b then menorIgualLista as bs else decide (a < b)

theorem menorIgualLista_total : ∀ xs ys : List Char,
    menorIgualLista xs ys = true ∨ menorIgualLista ys xs = true := by
  intro xs
  induction xs with
  | nil => intro ys; left; rfl
  | cons a as ih =>
    intro ys
    cases ys with
    | nil => right; rfl
    | cons b bs =>
      by_cases hab : a = b
      · subst hab
        rcases ih bs with h | h
        · left; simpa [menorIgualLista] using h
        · right; simpa [menorIgualLista] using h
      · rcases lt_or_gt_of_ne hab with hlt | hgt
        · left; simp [menorIgualLista, hab, hlt]
        · right
          have hba : ¬ b = a := fun h => hab h.symm
          simp only [menorIgualLista, if_neg hba]
          exact decide_eq_true hgt

theorem menorIgualLista_trans : ∀ xs ys zs : List Char,
    menorIgualLista xs ys = true → menorIgualLista ys zs = true →
    menorIgualLista xs zs = true := by
  intro xs
  induction xs with
  | nil => intro ys zs _ _; rfl
  | cons a as ih =>
    intro ys zs hxy hyz
    cases ys with
    | nil => exact absurd hxy (by simp [menorIgualLista])
    | cons b bs =>
      cases zs with
      | nil => exact absurd hyz (by simp [menorIgualLista])
      | cons c cs =>
        by_cases hab : a = b <;> by_cases hbc : b = c
        · subst hab; subst hbc
          simp only [menorIgualLista, if_pos rfl] at hxy hyz ⊢
          exact ih bs cs hxy hyz
        · subst hab
          simp only [menorIgualLista, if_neg hbc] at hyz
          simp only [menorIgualLista, if_neg hbc]
          exact hyz
        · subst hbc
          simp only [menorIgualLista, if_neg hab] at hxy
          simp only [menorIgualLista, if_neg hab]
          exact hxy
        · simp only [menorIgualLista, if_neg hab] at hxy
          simp only [menorIgualLista, if_neg hbc] at hyz
          have hac : a < c := lt_trans (of_decide_eq_true hxy) (of_decide_eq_true hyz)
          have hne : a ≠ c := ne_of_lt hac
          simp [menorIgualLista, hne, hac]

/-- The sort key of `df.sort_values('fecha', ascending=False)`: pandas
compares the canonical `YYYY-MM-DD` strings, so descending lexicographic
order is descending chronological order. -/
def fechaDescendente (a b : FilaLimpia) : Prop :=
  menorIgualLista (b.fecha.getD "").data (a.fecha.getD "").data = true

instance : DecidableRel fechaDescendente := fun a b =>
  inferInstanceAs
    (Decidable (menorIgualLista (b.fecha.getD "").data (a.fecha.getD "").data = true))

instance : IsTotal FilaLimpia fechaDescendente :=
  ⟨fun a b => menorIgualLista_total (b.fecha.getD "").data (a.fecha.getD "").data⟩

instance : IsTrans FilaLimpia fechaDescendente :=
  ⟨fun _ _ _ hab hbc => menorIgualLista_trans _ _ _ hbc hab⟩

/-- `parsear_csv_abanca`, cleaning part (lines 107-123): strip and default
the description, parse amount and date, drop rows lacking date or amount,
drop empty descriptions, sort by date descending.  (pandas' unstable
quicksort is modelled by insertion sort; the claim constrains only
sortedness, not tie order.) -/
def parsear_csv_abanca (filas : List FilaCSV) : List FilaLimpia :=
  let df := filas.map (fun f =>
    FilaLimpia.mk (parsear_fecha f.fecha)
      (recortar (f.descripcion.getD ""))
      (parsear_importe_espanol f.importe))
  let df := df.filter (fun f => f.fecha.isSome && f.importe.isSome)
  let df := df.filter (fun f => decide (0 < f.descripcion.length))
  df.insertionSort fechaDescendente

/-- C8 (explicit).  Every row returned by `parsear_csv_abanca` has a
successfully parsed date and amount and a non-empty description, and the
rows are sorted by date in descending order. -/
theorem csv_abanca_valido_ordenado (filas : List FilaCSV) :
    (∀ f ∈ parsear_csv_abanca filas,
      f.fecha.isSome = true ∧ f.importe.isSome = true ∧ f.descripcion ≠ "")
    ∧ List.Sorted fechaDescendente (parsear_csv_abanca filas) := by
  constructor
  · intro f hf
    unfold parsear_csv_abanca at hf
    rw [List.mem_insertionSort] at hf
    have h2 := List.mem_filter.mp hf
    have h1 := List.mem_filter.mp h2.1
    have hva := Bool.and_eq_true_iff.mp h1.2
    refine ⟨hva.1, hva.2, ?_⟩
    have hlen : 0 < f.descripcion.length := of_decide_eq_true h2.2
    intro hdesc
    rw [hdesc] at hlen
    exact absurd hlen (by decide)
  · exact List.sorted_insertionSort fechaDescendente _

/-- Input rows exercising every drop reason. -/
def filasCSVTest : List FilaCSV :=
  [⟨some "02/01/2025", some " PAGO NOMINA ", some "-1.234,56"⟩,
   ⟨some "fecha-mala", some "X", some "10,00"⟩,
   ⟨some "03/01/2025", some "   ", some "5,00"⟩,
   ⟨some "04/01/2025", some "ABONO", some ""⟩,
   ⟨some "05/01/2025", some "COMPRA", some "20,00"⟩]

/-- Witness for C8: the cleaned `"COMPRA"` row survives with parsed date
`2025-01-05` and amount 20, and satisfies the validity conjunct. -/
theorem csv_abanca_valido_ordenado_witness :
    (⟨some "2025-01-05", "COMPRA", some 20⟩ : FilaLimpia) ∈ parsear_csv_abanca filasCSVTest ∧
    ((⟨some "2025-01-05", "COMPRA", some 20⟩ : FilaLimpia).fecha.isSome = true ∧
     (⟨some "2025-01-05", "COMPRA", some 20⟩ : FilaLimpia).importe.isSome = true ∧
     (⟨some "2025-01-05", "COMPRA", some 20⟩ : FilaLimpia).descripcion ≠ "") :=
  ⟨by decide,
   (csv_abanca_valido_ordenado filasCSVTest).1 _ (by decide)⟩

/-! ## The invoice entry point
(`parsear_factura_pdf`, `importador_facturas.py` lines 104-162).

The function opens the PDF and dispatches to a provider parser inside one
`try`; `except Exception` appends the message to `resultado['errores']`
and the initialised dict is returned in every case.  PDF text extraction
(`pdfplumber`) and the four provider parsers — whose bodies run inside
the same `try` and mutate `resultado` in place before possibly raising —
are modelled as an oracle: `extraer` either yields the extracted text or
throws, and each parser maps the current `resultado` to its final state
plus an optional thrown message. -/

/-- The result dict: initialised with all eight keys up front (lines
118-127); the source only ever assigns to these keys, so the record type
carries them on every path. -/
structure Resultado where
  proveedor : String
  tipo : String
  fecha_factura : Option String
  num_factura : Option String
  total_factura : ℚ
  movimientos : List MovComb
  resumen_vehiculos : List (String × Resumen)
  errores : List String
deriving DecidableEq, Repr

/-- Lines 118-127. -/
def resultadoInicial : Resultado :=
  { proveedor := "DESCONOCIDO", tipo := "COMBUSTIBLE", fecha_factura := none,
    num_factura := none, total_factura := 0, movimientos := [],
    resumen_vehiculos := [], errores := [] }

/-- The external effects of one input: text extraction may throw
(non-PDF bytes), and each provider parser returns its final mutated
state together with `some message` when it raises. -/
structure OraculoPdf where
  extraer : Except String String
  staroil : Resultado → Resultado × Option String
  solred : Resultado → Resultado × Option String
  valcarceCombustible : Resultado → Resultado × Option String
  valcarcePeajes : Resultado → Resultado × Option String

/-- `detectar_proveedor` (lines 70-81). -/
def detectar_proveedor (texto : String) : String :=
  let texto_upper := aMayusculas texto
  if contiene texto_upper "STAROIL" then "STAROIL"
  else if contiene texto_upper "SOLRED" || contiene texto_upper "REPSOL"
      || contiene texto_upper "WAYLET" then "SOLRED"
  else if contiene texto_upper "VALCARCE" then "VALCARCE"
  else "DESCONOCIDO"

/-- One anchored match of `AT-\d*[A-Z]*\s+PEAJE`: the character classes of
consecutive pieces are disjoint, so greedy star matching without
backtracking is exact. -/
def coincideAtPeaje (cs : List Char) : Bool :=
  match cs with
  | 'A' :: 'T' :: '-' :: resto =>
    let resto1 := resto.dropWhile Char.isDigit
    let resto2 := resto1.dropWhile (fun c => decide ('A' ≤ c) && decide (c ≤ 'Z'))
    match resto2 with
    | c :: resto3 =>
      c.isWhitespace && esPrefijo "PEAJE".data (resto3.dropWhile Char.isWhitespace)
    | [] => false
  | _ => false

/-- `re.search(r'AT-\d*[A-Z]*\s+PEAJE', texto)`. -/
def buscaAtPeaje : List Char → Bool
  | [] => false
  | c :: t => coincideAtPeaje (c :: t) || buscaAtPeaje t

/-- `detectar_tipo_valcarce` (lines 84-101): toll marker wins, fuel marker
(and the default) give `COMBUSTIBLE`. -/
def detectar_tipo_valcarce (texto : String) : String :=
  let texto_upper := aMayusculas texto
  if buscaAtPeaje texto_upper.data then "PEAJES"
  else if contiene texto_upper "GA GASOLEO" || contiene texto_upper "GASOLEO" then
    "COMBUSTIBLE"
  else "COMBUSTIBLE"

/-- The `except Exception as e` handler around a provider parser call:
a thrown message is appended to the (already mutated) dict's error list
(line 160). -/
def manejar : Resultado × Option String → Resultado
  | (r, none) => r
  | (r, some m) => { r with errores := r.errores ++ ["Error al procesar PDF: " ++ m] }

/-- `parsear_factura_pdf` (lines 104-162). -/
def parsear_factura_pdf (o : OraculoPdf) (nombre_archivo : Option String) : Resultado :=
  let resultado := resultadoInicial
  match o.extraer with
  | Except.error m =>
    { resultado with errores := resultado.errores ++ ["Error al procesar PDF: " ++ m] }
  | Except.ok texto_completo =>
    let proveedor := detectar_proveedor texto_completo
    let resultado := { resultado with proveedor := proveedor }
    if proveedor = "STAROIL" then
      manejar (o.staroil { resultado with tipo := "COMBUSTIBLE" })
    else if proveedor = "SOLRED" then
      manejar (o.solred { resultado with tipo := "COMBUSTIBLE" })
    else if proveedor = "VALCARCE" then
      let tipo_valcarce := detectar_tipo_valcarce texto_completo
      let resultado := { resultado with tipo := tipo_valcarce }
      if tipo_valcarce = "PEAJES" then manejar (o.valcarcePeajes resultado)
      else manejar (o.valcarceCombustible resultado)
    else
      { resultado with
        errores := resultado.errores
          ++ ["Proveedor no reconocido en " ++ nombre_archivo.getD "None"] }

/-- The dict state handed to a provider parser: provider and sub-type set. -/
def resultadoConProveedor (p t : String) : Resultado :=
  { resultadoInicial with proveedor := p, tipo := t }

/-- C9 (implicit).  `parsear_factura_pdf` is total at its interface: it
returns a `Resultado` — carrying all eight keys by construction — for
every input, and never propagates a failure: an extraction error, a
message thrown by whichever provider parser was dispatched, and an
unrecognized provider are all recorded in the returned `errores` list. -/
theorem parsear_factura_pdf_total (o : OraculoPdf) (n : Option String) :
    (∀ m, o.extraer = Except.error m →
      "Error al procesar PDF: " ++ m ∈ (parsear_factura_pdf o n).errores)
    ∧ (∀ texto r m, o.extraer = Except.ok texto →
        ((detectar_proveedor texto = "STAROIL" ∧
          o.staroil (resultadoConProveedor "STAROIL" "COMBUSTIBLE") = (r, some m))
         ∨ (detectar_proveedor texto = "SOLRED" ∧
            o.solred (resultadoConProveedor "SOLRED" "COMBUSTIBLE") = (r, some m))
         ∨ (detectar_proveedor texto = "VALCARCE" ∧
            detectar_tipo_valcarce texto = "PEAJES" ∧
            o.valcarcePeajes (resultadoConProveedor "VALCARCE" "PEAJES") = (r, some m))
         ∨ (detectar_proveedor texto = "VALCARCE" ∧
            detectar_tipo_valcarce texto ≠ "PEAJES" ∧
            o.valcarceCombustible
              (resultadoConProveedor "VALCARCE" (detectar_tipo_valcarce texto)) = (r, some m))) →
        "Error al procesar PDF: " ++ m ∈ (parsear_factura_pdf o n).errores)
    ∧ (∀ texto, o.extraer = Except.ok texto →
        detectar_proveedor texto = "DESCONOCIDO" →
        "Proveedor no reconocido en " ++ n.getD "None"
          ∈ (parsear_factura_pdf o n).errores) := by
  refine ⟨?_, ?_, ?_⟩
  · intro m hm
    simp [parsear_factura_pdf, hm, resultadoInicial]
  · intro texto r m htexto hdisp
    rcases hdisp with ⟨hprov, hpar⟩ | ⟨hprov, hpar⟩ | ⟨hprov, htipo, hpar⟩
      | ⟨hprov, htipo, hpar⟩
    · simp only [resultadoConProveedor] at hpar
      simp [parsear_factura_pdf, htexto, hprov, hpar, manejar]
    · simp only [resultadoConProveedor] at hpar
      simp [parsear_factura_pdf, htexto, hprov, hpar, manejar]
    · simp only [resultadoConProveedor] at hpar
      simp [parsear_factura_pdf, htexto, hprov, htipo, hpar, manejar]
    · simp only [parsear_factura_pdf, htexto]
      rw [if_neg (by rw [hprov]; decide), if_neg (by rw [hprov]; decide),
        if_pos hprov, if_neg htipo, hprov]
      simp only [resultadoConProveedor] at hpar
      simp [hpar, manejar]
  · intro texto htexto hprov
    simp [parsear_factura_pdf, htexto, hprov, resultadoInicial]

/-- Witness for C9: an oracle whose extraction throws (non-PDF bytes);
the message is recorded in `errores` of the returned result. -/
theorem parsear_factura_pdf_total_witness :
    "Error al procesar PDF: " ++ "archivo corrupto"
      ∈ (parsear_factura_pdf
          ⟨Except.error "archivo corrupto", fun r => (r, none), fun r => (r, none),
           fun r => (r, none), fun r => (r, none)⟩ (some "factura.pdf")).errores :=
  (parsear_factura_pdf_total
      ⟨Except.error "archivo corrupto", fun r => (r, none), fun r => (r, none),
       fun r => (r, none), fun r => (r, none)⟩ (some "factura.pdf")).1
    "archivo corrupto" rfl

end LogisPlan
